import Mathlib

/-!
# Atmel Cortex-M7 target backend (`target_atmel_cm7.c`)

A shallow embedding of the device table, the session selection and the
user-signature / GPNVM operations of `target_atmel_cm7.c`, together with the
properties of these operations.

The debug-port primitives (`dap_read_word`, `dap_write_word`,
`dap_read_block`, `dap_write_block`, `dap_reset_target_hw`,
`reconnect_debugger`) are external to the file; they are taken as a parameter
(`Dev`).  Every call to one of them is recorded in a trace, so that "which
hardware accesses happen, and in which order" is a statement about a list.
Busy-wait loops have no iteration cap in the source; they are run with a
fuel bound and report `Result.hang` when the bound is exhausted.
-/

namespace AtmelCm7

/-! ## Definitions of the source file -/

def FLASH_START : Nat := 0x00400000
def FLASH_PAGE_SIZE : Nat := 512

def DHCSR : Nat := 0xe000edf0
def DHCSR_DEBUGEN : Nat := 1 <<< 0
def DHCSR_HALT : Nat := 1 <<< 1
def DHCSR_DBGKEY : Nat := 0xa05f <<< 16

def DEMCR : Nat := 0xe000edfc
def DEMCR_VC_CORERESET : Nat := 1 <<< 0

def AIRCR : Nat := 0xe000ed0c
def AIRCR_VECTKEY : Nat := 0x05fa <<< 16
def AIRCR_SYSRESETREQ : Nat := 1 <<< 2

def CHIPID_CIDR : Nat := 0x400e0940
def CHIPID_EXID : Nat := 0x400e0944

def EEFC_FMR : Nat := 0x400e0c00
def EEFC_FCR : Nat := 0x400e0c04
def EEFC_FSR : Nat := 0x400e0c08
def EEFC_FRR : Nat := 0x400e0c0c
def FSR_FRDY : Nat := 1

def CMD_GETD : Nat := 0x5a000000
def CMD_WP : Nat := 0x5a000001
def CMD_EPA : Nat := 0x5a000007
def CMD_EA : Nat := 0x5a000005
def CMD_SGPB : Nat := 0x5a00000b
def CMD_CGPB : Nat := 0x5a00000c
def CMD_GGPB : Nat := 0x5a00000d
def CMD_WUS : Nat := 0x5a000012
def CMD_EUS : Nat := 0x5a000013
def CMD_STUS : Nat := 0x5a000014
def CMD_SPUS : Nat := 0x5a000015

def PAGES_IN_ERASE_BLOCK : Nat := 16

def GPNVM_SIZE : Nat := 2
def GPNVM_SIZE_BITS : Nat := 9

/-- The record `device_t`. -/
structure device_t where
  chip_id : Nat
  chip_exid : Nat
  family : String
  name : String
  flash_size : Nat
deriving DecidableEq

/-- The table `devices`, in declaration order. -/
def devices : List device_t :=
  [ ⟨0xa1020e00, 0x00000002, "same70", "SAM E70Q21",          2*1024*1024⟩,
    ⟨0xa1020e01, 0x00000002, "same70", "SAM E70Q21 (Rev B)",  2*1024*1024⟩,
    ⟨0xa1020c00, 0x00000002, "same70", "SAM E70Q20",            1024*1024⟩,
    ⟨0xa10d0a00, 0x00000002, "same70", "SAM E70Q19",             512*1024⟩,
    ⟨0xa1020e00, 0x00000001, "same70", "SAM E70N21",          2*1024*1024⟩,
    ⟨0xa1020e01, 0x00000001, "same70", "SAM E70N21 (Rev B)",  2*1024*1024⟩,
    ⟨0xa1020c00, 0x00000001, "same70", "SAM E70N20",            1024*1024⟩,
    ⟨0xa1020c01, 0x00000001, "same70", "SAM E70N20 (Rev B)",    1024*1024⟩,
    ⟨0xa10d0a00, 0x00000001, "same70", "SAM E70N19",             512*1024⟩,
    ⟨0xa1020e00, 0x00000000, "same70", "SAM E70J21",          2*1024*1024⟩,
    ⟨0xa1020c00, 0x00000000, "same70", "SAM E70J20",            1024*1024⟩,
    ⟨0xa10d0a00, 0x00000000, "same70", "SAM E70J19",             512*1024⟩,
    ⟨0xa1120e00, 0x00000002, "sams70", "SAM S70Q21",          2*1024*1024⟩,
    ⟨0xa1120c00, 0x00000002, "sams70", "SAM S70Q20",            1024*1024⟩,
    ⟨0xa11d0a00, 0x00000002, "sams70", "SAM S70Q19",             512*1024⟩,
    ⟨0xa1120e00, 0x00000001, "sams70", "SAM S70N21",          2*1024*1024⟩,
    ⟨0xa1120c00, 0x00000001, "sams70", "SAM S70N20",            1024*1024⟩,
    ⟨0xa11d0a00, 0x00000001, "sams70", "SAM S70N19",             512*1024⟩,
    ⟨0xa1120e00, 0x00000000, "sams70", "SAM S70J21",          2*1024*1024⟩,
    ⟨0xa1120c00, 0x00000000, "sams70", "SAM S70J20",            1024*1024⟩,
    ⟨0xa11d0a00, 0x00000000, "sams70", "SAM S70J19",             512*1024⟩,
    ⟨0xa1220e00, 0x00000002, "samv71", "SAM V71Q21",          2*1024*1024⟩,
    ⟨0xa1220e01, 0x00000002, "samv71", "SAM V71Q21 (Rev B)",  2*1024*1024⟩,
    ⟨0xa1220c00, 0x00000002, "samv71", "SAM V71Q20",            1024*1024⟩,
    ⟨0xa1320c01, 0x00000002, "samv71", "SAM V71Q20 (Rev B)",    1024*1024⟩,
    ⟨0xa12d0a00, 0x00000002, "samv71", "SAM V71Q19",             512*1024⟩,
    ⟨0xa1220e00, 0x00000001, "samv71", "SAM V71N21",          2*1024*1024⟩,
    ⟨0xa1220e01, 0x00000001, "samv71", "SAM V71N21 (Rev B)",  2*1024*1024⟩,
    ⟨0xa1220c00, 0x00000001, "samv71", "SAM V71N20",            1024*1024⟩,
    ⟨0xa12d0a00, 0x00000001, "samv71", "SAM V71N19",             512*1024⟩,
    ⟨0xa12d0a01, 0x00000001, "samv71", "SAM V71N19 (Rev B)",     512*1024⟩,
    ⟨0xa1220e00, 0x00000000, "samv71", "SAM V71J21",          2*1024*1024⟩,
    ⟨0xa1220c00, 0x00000000, "samv71", "SAM V71J20",            1024*1024⟩,
    ⟨0xa12d0a00, 0x00000000, "samv71", "SAM V71J19",             512*1024⟩,
    ⟨0xa1320c00, 0x00000002, "samv70", "SAM V70Q20",            1024*1024⟩,
    ⟨0xa13d0a00, 0x00000002, "samv70", "SAM V70Q19",             512*1024⟩,
    ⟨0xa1320c00, 0x00000001, "samv70", "SAM V70N20",            1024*1024⟩,
    ⟨0xa13d0a00, 0x00000001, "samv70", "SAM V70N19",             512*1024⟩,
    ⟨0xa1320c00, 0x00000000, "samv70", "SAM V70J20",            1024*1024⟩,
    ⟨0xa13d0a00, 0x00000000, "samv70", "SAM V70J19",             512*1024⟩ ]

/-- Modelled from the spec: `target_options_t` is declared in `target.h`, which
is not part of the source file.  Only the fields this file reads are kept: the
payload buffer `file_data` with its size `file_size`, the requested `size` and
the output `name`.  Sizes are the unsigned 32-bit values the functions load
into their `uint32_t` locals; buffer cells are bytes. -/
structure target_options_t where
  name : String
  size : Nat
  file_size : Nat
  file_data : List Nat
deriving DecidableEq

/-! ## Environment -/

/-- One observable action of the program on its collaborators. -/
inductive Event where
  | reset_hw (v : Nat)
  | reconnect
  | write_word (addr data : Nat)
  | read_word (addr data : Nat)
  | write_block (addr : Nat) (data : List Nat)
  | read_block (addr : Nat) (data : List Nat)
  | save_file (name : String) (data : List Nat)
  | verbose (fmt : String) (args : List Nat)
  | verbose_s (fmt : String) (arg : String)
deriving DecidableEq

/-- The debug-port primitives, over a hardware state `σ`. -/
structure Dev (σ : Type) where
  reset_hw : Nat → σ → σ
  reconnect : σ → σ
  read_word : Nat → σ → Nat × σ
  write_word : Nat → Nat → σ → σ
  read_block : Nat → Nat → σ → List Nat × σ
  write_block : Nat → List Nat → σ → σ

/-- Program state: the hardware, the trace of actions so far, and the two
file-level variables `target_device` and `target_options`. -/
structure State (σ : Type) where
  hw : σ
  trace : List Event
  target_device : device_t
  target_options : target_options_t

/-- Outcome of running a function: normal return, `error_exit` (fatal, with the
format string and its numeric arguments), or a busy-wait that outlived the
fuel. -/
inductive Result (σ α : Type) where
  | ok (a : α) (s : State σ)
  | fatal (fmt : String) (args : List Nat) (s : State σ)
  | hang

/-- A function of the source file, as a state transformer. -/
def Prog (σ α : Type) : Type := State σ → Result σ α

def Prog.pure {σ α : Type} (a : α) : Prog σ α := fun s => Result.ok a s

def Prog.bind {σ α β : Type} (m : Prog σ α) (f : α → Prog σ β) : Prog σ β := fun s =>
  match m s with
  | Result.ok a s1 => f a s1
  | Result.fatal fmt args s1 => Result.fatal fmt args s1
  | Result.hang => Result.hang

instance {σ : Type} : Monad (Prog σ) where
  pure := Prog.pure
  bind := Prog.bind

/-- Append one action to the trace. -/
def emit {σ : Type} (e : Event) : Prog σ Unit := fun s =>
  Result.ok () { s with trace := s.trace ++ [e] }

/-- Conversion to `uint32_t`. -/
def u32 (n : Nat) : Nat := n % 4294967296

/-- Conversion to `uint8_t`. -/
def u8 (n : Nat) : Nat := n % 256

def dap_reset_target_hw {σ : Type} (dev : Dev σ) (v : Nat) : Prog σ Unit := fun s =>
  Result.ok () { s with hw := dev.reset_hw v s.hw, trace := s.trace ++ [Event.reset_hw v] }

def reconnect_debugger {σ : Type} (dev : Dev σ) : Prog σ Unit := fun s =>
  Result.ok () { s with hw := dev.reconnect s.hw, trace := s.trace ++ [Event.reconnect] }

def dap_write_word {σ : Type} (dev : Dev σ) (addr data : Nat) : Prog σ Unit := fun s =>
  Result.ok () { s with hw := dev.write_word addr data s.hw,
                        trace := s.trace ++ [Event.write_word addr data] }

/-- The word read is a `uint32_t`. -/
def dap_read_word {σ : Type} (dev : Dev σ) (addr : Nat) : Prog σ Nat := fun s =>
  Result.ok (u32 (dev.read_word addr s.hw).1)
    { s with hw := (dev.read_word addr s.hw).2,
             trace := s.trace ++ [Event.read_word addr (u32 (dev.read_word addr s.hw).1)] }

def dap_write_block {σ : Type} (dev : Dev σ) (addr : Nat) (data : List Nat) : Prog σ Unit :=
  fun s =>
  Result.ok () { s with hw := dev.write_block addr data s.hw,
                        trace := s.trace ++ [Event.write_block addr data] }

def dap_read_block {σ : Type} (dev : Dev σ) (addr size : Nat) : Prog σ (List Nat) := fun s =>
  Result.ok (dev.read_block addr size s.hw).1
    { s with hw := (dev.read_block addr size s.hw).2,
             trace := s.trace ++ [Event.read_block addr (dev.read_block addr size s.hw).1] }

/-- Modelled from the spec: `verbose` (logging) is declared in `edbg.h`; it
touches no hardware and is recorded with its format string and arguments. -/
def verbose {σ : Type} (fmt : String) (args : List Nat) : Prog σ Unit :=
  emit (Event.verbose fmt args)

/-- Modelled from the spec: `verbose` with one string argument. -/
def verbose_s {σ : Type} (fmt : String) (arg : String) : Prog σ Unit :=
  emit (Event.verbose_s fmt arg)

/-- Modelled from the spec: `error_exit` (declared in `edbg.h`) is the fatal
abort; nothing after it runs. -/
def error_exit {σ α : Type} (fmt : String) (args : List Nat) : Prog σ α := fun s =>
  Result.fatal fmt args s

/-- Modelled from the spec: `check(cond, ...)` (a macro of `edbg.h`) aborts
through `error_exit` when `cond` is false. -/
def check {σ : Type} (cond : Bool) (fmt : String) (args : List Nat) : Prog σ Unit :=
  if cond then Prog.pure () else error_exit fmt args

/-- Modelled from the spec: `save_file` (the "save to storage" collaborator). -/
def save_file {σ : Type} (name : String) (data : List Nat) : Prog σ Unit :=
  emit (Event.save_file name data)

/-- The loop `while (k == (dap_read_word(EEFC_FSR) & FSR_FRDY));`, at most
`fuel` reads. -/
def wait_while {σ : Type} (dev : Dev σ) (k : Nat) : Nat → Prog σ Unit
  | 0 => fun _ => Result.hang
  | fuel + 1 => do
    let v ← dap_read_word dev EEFC_FSR
    if k = v &&& FSR_FRDY then wait_while dev k fuel else Prog.pure ()

/-- The statement `dap_read_word(addr);`, the word read being dropped. -/
def discard_word {σ : Type} (dev : Dev σ) (addr : Nat) : Prog σ Unit := do
  let _ ← dap_read_word dev addr
  Prog.pure ()

/-- The loop `for (i = start; i < start + count; i++) body(i);`. -/
def for_loop {σ : Type} (body : Nat → Prog σ Unit) : Nat → Nat → Prog σ Unit
  | _, 0 => Prog.pure ()
  | i, count + 1 => do
    body i
    for_loop body (i + 1) count

def get_target_options {σ : Type} : Prog σ target_options_t := fun s =>
  Result.ok s.target_options s

def set_target_options {σ : Type} (o : target_options_t) : Prog σ Unit := fun s =>
  Result.ok () { s with target_options := o }

def set_target_device {σ : Type} (d : device_t) : Prog σ Unit := fun s =>
  Result.ok () { s with target_device := d }

/-- The call `target_check_options(&target_options, size, align)`: the
validator is external and is a parameter; it either rewrites the options or
aborts. -/
def target_check_options {σ : Type}
    (validator : target_options_t → Nat → Nat → Except (String × List Nat) target_options_t)
    (size align : Nat) : Prog σ Unit := do
  let o ← get_target_options
  match validator o size align with
  | Except.ok o1 => set_target_options o1
  | Except.error e => error_exit e.1 e.2

/-! ## Functions of the source file -/

/-- Body of the device loop of `target_select` once entry `d` has matched. -/
def select_body {σ : Type} (dev : Dev σ) (fuel : Nat)
    (validator : target_options_t → Nat → Nat → Except (String × List Nat) target_options_t)
    (options : target_options_t) (d : device_t) : Prog σ Unit := do
  verbose_s "Target: %s\n" d.name
  dap_write_word dev EEFC_FCR CMD_GETD
  wait_while dev 0 fuel
  let fl_id ← dap_read_word dev EEFC_FRR
  check (fl_id != 0) "Cannot read flash descriptor, check Erase pin state" []
  let fl_size ← dap_read_word dev EEFC_FRR
  check (fl_size == d.flash_size) "Invalid reported Flash size (%d)" [fl_size]
  let fl_page_size ← dap_read_word dev EEFC_FRR
  check (fl_page_size == FLASH_PAGE_SIZE) "Invalid reported page size (%d)" [fl_page_size]
  let fl_nb_palne ← dap_read_word dev EEFC_FRR
  for_loop (fun _ => discard_word dev EEFC_FRR) 0 fl_nb_palne
  let fl_nb_lock ← dap_read_word dev EEFC_FRR
  for_loop (fun _ => discard_word dev EEFC_FRR) 0 fl_nb_lock
  set_target_device d
  set_target_options options
  target_check_options validator d.flash_size (FLASH_PAGE_SIZE * PAGES_IN_ERASE_BLOCK)

/-- The device loop of `target_select`, over the entries not yet visited. -/
def select_loop {σ : Type} (dev : Dev σ) (fuel : Nat)
    (validator : target_options_t → Nat → Nat → Except (String × List Nat) target_options_t)
    (options : target_options_t) (chip_id chip_exid : Nat) : List device_t → Prog σ Unit
  | [] => error_exit "unknown target device (CHIP_ID = 0x%08x)" [chip_id]
  | d :: rest =>
    if d.chip_id != chip_id || d.chip_exid != chip_exid then
      select_loop dev fuel validator options chip_id chip_exid rest
    else
      select_body dev fuel validator options d

def target_select {σ : Type} (dev : Dev σ) (fuel : Nat)
    (validator : target_options_t → Nat → Nat → Except (String × List Nat) target_options_t)
    (options : target_options_t) : Prog σ Unit := do
  dap_reset_target_hw dev 1
  reconnect_debugger dev
  dap_write_word dev DHCSR (DHCSR_DBGKEY ||| DHCSR_DEBUGEN ||| DHCSR_HALT)
  dap_write_word dev DEMCR DEMCR_VC_CORERESET
  dap_write_word dev AIRCR (AIRCR_VECTKEY ||| AIRCR_SYSRESETREQ)
  let chip_id ← dap_read_word dev CHIPID_CIDR
  let chip_exid ← dap_read_word dev CHIPID_EXID
  select_loop dev fuel validator options chip_id chip_exid devices

def target_erase_user_signature {σ : Type} (dev : Dev σ) (fuel : Nat) : Prog σ Unit := do
  dap_write_word dev EEFC_FCR CMD_EUS
  wait_while dev 0 fuel
  verbose "User Signature erase" []

def target_lock {σ : Type} : Prog σ Unit :=
  verbose "User Signature area cannot be locked!" []

/-- The `size` bytes of a buffer starting at `offs`; cells past the end of the
list read as 0. -/
def buf_slice (buf : List Nat) (offs size : Nat) : List Nat :=
  (List.range size).map (fun i => buf.getD (offs + i) 0)

def target_program_user_signature {σ : Type} (dev : Dev σ) (fuel : Nat) : Prog σ Unit := do
  let o ← get_target_options
  let addr := FLASH_START
  let offs := 0
  let buf := o.file_data
  let size := o.file_size
  if size > FLASH_PAGE_SIZE then
    verbose "Error! The file size cannot exceed 512 bytes, nothing" []
  else do
    dap_write_block dev addr (buf_slice buf offs FLASH_PAGE_SIZE)
    dap_write_word dev EEFC_FCR CMD_WUS
    wait_while dev 0 fuel

/-- One iteration of the comparison loop of `target_verify_user_signature`. -/
def verify_step {σ : Type} (addr offs : Nat) (bufa bufb : List Nat) (i : Nat) : Prog σ Unit :=
  if bufa.getD (offs + i) 0 != bufb.getD i 0 then do
    verbose "\nat address 0x%x expected 0x%02x, read 0x%02x\n"
      [addr + i, bufa.getD (offs + i) 0, bufb.getD i 0]
    error_exit "verification failed" []
  else Prog.pure ()

def target_verify_user_signature {σ : Type} (dev : Dev σ) (fuel : Nat) : Prog σ Unit := do
  let o ← get_target_options
  let addr := FLASH_START
  let offs := 0
  let bufa := o.file_data
  let size := o.file_size
  if size > FLASH_PAGE_SIZE then
    verbose "Error! The file size cannot exceed 512 bytes, nothing" []
  else do
    dap_write_word dev EEFC_FCR CMD_STUS
    wait_while dev 1 fuel
    let bufb ← dap_read_block dev addr FLASH_PAGE_SIZE
    dap_write_word dev EEFC_FCR CMD_SPUS
    wait_while dev 0 fuel
    for_loop (verify_step addr offs bufa bufb) 0 FLASH_PAGE_SIZE

/-- `target_fuse_read`: returns the byte count and the updated `data`. -/
def target_fuse_read {σ : Type} (dev : Dev σ) (fuel : Nat) (section_ : Int) (data : List Nat) :
    Prog σ (Nat × List Nat) :=
  if section_ > 0 then Prog.pure (0, data)
  else do
    dap_write_word dev EEFC_FCR CMD_GGPB
    wait_while dev 0 fuel
    let gpnvm ← dap_read_word dev EEFC_FRR
    let data1 := data.set 0 (u8 gpnvm)
    let data2 := data1.set 1 (u8 (gpnvm >>> 8))
    Prog.pure (GPNVM_SIZE, data2)

def target_fuse_write {σ : Type} (dev : Dev σ) (section_ : Int) (data : List Nat) :
    Prog σ Unit := do
  let gpnvm := u32 ((data.getD 1 0 <<< 8) ||| data.getD 0 0)
  check (0 == section_) "internal: incorrect section index in target_fuse_write()" []
  for_loop (fun i =>
    if gpnvm &&& (1 <<< i) != 0 then
      dap_write_word dev EEFC_FCR (CMD_SGPB ||| (i <<< 8))
    else
      dap_write_word dev EEFC_FCR (CMD_CGPB ||| (i <<< 8))) 0 GPNVM_SIZE_BITS

def target_enumerate (i : Nat) : Option String :=
  if h : i < devices.length then some (devices.get ⟨i, h⟩).family else none

/-! ## Hardware models -/

/-- A replay of what the target answers: the two identity registers, the
successive values of the status register `EEFC_FSR` and of the result register
`EEFC_FRR` (a register whose list is used up reads as 0), and the page a block
read returns.  Writes are accepted and change nothing. -/
structure Script where
  cidr : Nat
  exid : Nat
  fsr : List Nat
  frr : List Nat
  page : List Nat
deriving DecidableEq

def scripted : Dev Script where
  reset_hw := fun _ h => h
  reconnect := fun h => h
  read_word := fun addr h =>
    if addr = CHIPID_CIDR then (h.cidr, h)
    else if addr = CHIPID_EXID then (h.exid, h)
    else if addr = EEFC_FSR then (h.fsr.headD 0, { h with fsr := h.fsr.tail })
    else if addr = EEFC_FRR then (h.frr.headD 0, { h with frr := h.frr.tail })
    else (0, h)
  write_word := fun _ _ h => h
  read_block := fun _ _ h => (h.page, h)
  write_block := fun _ _ h => h

/-- Flash controller reduced to its GPNVM bits: `bits` is the 9-bit GPNVM
register, `frr` the result word. -/
structure Gpnvm where
  bits : Nat
  frr : Nat
deriving DecidableEq

/-- A command word `key << 24 | arg << 8 | cmd` written to `EEFC_FCR` with the
key 0x5a: "set GPNVM bit" sets bit `arg` of the register, "clear GPNVM bit"
clears it, "get GPNVM bits" puts the register in the result word.  Commands
complete at once: the status register always reads ready. -/
def gpnvm_ctl : Dev Gpnvm where
  reset_hw := fun _ h => h
  reconnect := fun h => h
  read_word := fun addr h =>
    if addr = EEFC_FSR then (FSR_FRDY, h)
    else if addr = EEFC_FRR then (h.frr, h)
    else (0, h)
  write_word := fun addr data h =>
    if addr = EEFC_FCR ∧ data >>> 24 = 0x5a then
      if data &&& 0xff = CMD_SGPB &&& 0xff then
        { h with bits := (h.bits ||| (1 <<< ((data >>> 8) &&& 0xffff))) % 2 ^ GPNVM_SIZE_BITS }
      else if data &&& 0xff = CMD_CGPB &&& 0xff then
        { h with bits := (h.bits ^^^ (h.bits &&& (1 <<< ((data >>> 8) &&& 0xffff))))
                           % 2 ^ GPNVM_SIZE_BITS }
      else if data &&& 0xff = CMD_GGPB &&& 0xff then
        { h with frr := h.bits % 2 ^ GPNVM_SIZE_BITS }
      else h
    else h
  read_block := fun _ _ h => ([], h)
  write_block := fun _ _ h => h

/-- The 9-bit register after bit `j` has been set (`b = true`) or cleared
(`b = false`). -/
def gpnvm_upd (b : Bool) (g j : Nat) : Nat :=
  (if b then g ||| (1 <<< j) else g ^^^ (g &&& (1 <<< j))) % 2 ^ GPNVM_SIZE_BITS

/-- Number of reads of the result register `EEFC_FRR` in a trace. -/
def frr_reads (t : List Event) : Nat :=
  t.countP (fun e => match e with
    | Event.read_word addr _ => addr == EEFC_FRR
    | _ => false)

/-- The words written to the command register `EEFC_FCR` in a trace, in order. -/
def fcr_writes (t : List Event) : List Nat :=
  t.filterMap (fun e => match e with
    | Event.write_word addr data => if addr = EEFC_FCR then some data else none
    | _ => none)

/-- The command word `target_fuse_write` issues for bit `i` of `v`. -/
def gpnvm_command (v i : Nat) : Nat :=
  if v.testBit i then 0x5a00000b ||| (i <<< 8) else 0x5a00000c ||| (i <<< 8)

/-! ## Sample inputs -/

/-- An options validator that accepts everything and changes nothing. -/
def accept_options : target_options_t → Nat → Nat →
    Except (String × List Nat) target_options_t :=
  fun o _ _ => Except.ok o

/-- An options validator that refuses a size that is not a multiple of the
alignment it is given. -/
def aligned_options : target_options_t → Nat → Nat →
    Except (String × List Nat) target_options_t :=
  fun o _ align =>
    if o.size % align = 0 then Except.ok o
    else Except.error ("size must be a multiple of %d for the selected target", [align])

/-- The zero-initialised `target_device`. -/
def no_device : device_t := ⟨0, 0, "", "", 0⟩

/-- The first entry of the table. -/
def sam_e70q21 : device_t := ⟨0xa1020e00, 0x00000002, "same70", "SAM E70Q21", 2*1024*1024⟩

/-- A one-page payload. -/
def page_options : target_options_t := ⟨"signature.bin", 512, 512, List.replicate 512 0xa5⟩

/-- A request of 513 bytes. -/
def oversize_options : target_options_t := ⟨"signature.bin", 513, 513, List.replicate 513 0xa5⟩

/-- A SAM E70Q21 that is busy for two status reads after GETD and reports two
plane words and three lock-region words. -/
def e70q21_target : State Script :=
  ⟨⟨0xa1020e00, 2, [0, 0, 1],
      [0x000f0730, 2*1024*1024, 512, 2, 0x100000, 0x100000, 3, 16, 17, 18], []⟩,
    [], no_device, page_options⟩

/-- A SAM E70Q21 whose flash descriptor reports 1 MiB instead of 2 MiB. -/
def e70q21_small_flash : State Script :=
  ⟨⟨0xa1020e00, 2, [0, 0, 1],
      [0x000f0730, 1024*1024, 512, 2, 0x100000, 0x100000, 3, 16, 17, 18], []⟩,
    [], no_device, page_options⟩

/-- A chip whose identity pair is not in the table. -/
def unknown_target : State Script :=
  ⟨⟨0x12345678, 0, [], [], []⟩, [], no_device, page_options⟩

/-- A target whose user-signature page holds the payload of `page_options`:
ready twice then not ready after "start read", busy once then ready after "stop
read". -/
def signature_target : State Script :=
  ⟨⟨0xa1020e00, 2, [1, 1, 0, 0, 1], [], List.replicate 512 0xa5⟩, [], sam_e70q21, page_options⟩

/-- The same target with a request of 513 bytes. -/
def oversize_target : State Script :=
  ⟨⟨0xa1020e00, 2, [0, 1], [], List.replicate 512 0xa5⟩, [], sam_e70q21, oversize_options⟩

/-- A target about to answer one fuse read: ready at once, GPNVM word 0x145. -/
def fuse_target : State Script :=
  ⟨⟨0xa1020e00, 2, [1], [0x145], []⟩, [], sam_e70q21, page_options⟩

/-! ## Basic facts about running programs -/

section Basic
variable {σ α β : Type}

theorem bind_ok {m : Prog σ α} {f : α → Prog σ β} {s s1 : State σ} {a : α}
    (h : m s = Result.ok a s1) : (m >>= f) s = f a s1 := by
  show Prog.bind m f s = f a s1
  simp [Prog.bind, h]

theorem bind_fatal {m : Prog σ α} {f : α → Prog σ β} {s s1 : State σ} {fmt : String}
    {args : List Nat} (h : m s = Result.fatal fmt args s1) :
    (m >>= f) s = Result.fatal fmt args s1 := by
  show Prog.bind m f s = _
  simp [Prog.bind, h]

theorem u32_of_lt {n : Nat} (h : n < 4294967296) : u32 n = n := Nat.mod_eq_of_lt h

theorem u32_and_frdy (v : Nat) : u32 v &&& FSR_FRDY = v % 2 := by
  simp only [u32, FSR_FRDY, Nat.and_one_is_mod]
  omega

theorem and_bit_ne_zero (x i : Nat) : (x &&& (1 <<< i) != 0) = x.testBit i := by
  rw [Nat.one_shiftLeft]
  by_cases h : x.testBit i
  · have : (x &&& 2 ^ i).testBit i = true := by simp [Nat.testBit_two_pow_self, h]
    have hne : x &&& 2 ^ i ≠ 0 := by
      intro h0
      rw [h0] at this
      simp at this
    simp [h, hne]
  · have : x &&& 2 ^ i = 0 := by
      apply Nat.eq_of_testBit_eq
      intro j
      by_cases hij : i = j
      · subst hij
        simp [h]
      · simp [Nat.testBit_two_pow, hij]
    simp [h, this]

/-- A loop whose body is one register write performs the writes in order. -/
theorem for_loop_write (dev : Dev σ) (addr : Nat) (f : Nat → Nat) (n : Nat) :
    ∀ (i : Nat) (s : State σ),
      for_loop (fun j => dap_write_word dev addr (f j)) i n s =
        Result.ok ()
          { s with
            hw := (List.range' i n).foldl (fun h j => dev.write_word addr (f j) h) s.hw,
            trace := s.trace ++ (List.range' i n).map (fun j => Event.write_word addr (f j)) } := by
  induction n with
  | zero => intro i s; simp [for_loop, Prog.pure]
  | succ n ih =>
    intro i s
    have h1 : dap_write_word dev addr (f i) s =
        Result.ok () { s with hw := dev.write_word addr (f i) s.hw,
                              trace := s.trace ++ [Event.write_word addr (f i)] } := rfl
    simp only [for_loop]
    rw [bind_ok h1, ih]
    simp [List.range'_succ]

end Basic

/-! ## Fuse write -/

section FuseWrite
variable {σ : Type}

/-- What `target_fuse_write` does on section 0: nine writes to `EEFC_FCR`. -/
theorem fuse_write_run (dev : Dev σ) (data : List Nat) (s : State σ) :
    target_fuse_write dev 0 data s =
      Result.ok ()
        { s with
          hw := (List.range' 0 9).foldl (fun h j => dev.write_word EEFC_FCR
                  (gpnvm_command (u32 ((data.getD 1 0 <<< 8) ||| data.getD 0 0)) j) h) s.hw,
          trace := s.trace ++ (List.range' 0 9).map (fun j => Event.write_word EEFC_FCR
                  (gpnvm_command (u32 ((data.getD 1 0 <<< 8) ||| data.getD 0 0)) j)) } := by
  have hbody : (fun i =>
      if (u32 ((data.getD 1 0 <<< 8) ||| data.getD 0 0)) &&& (1 <<< i) != 0 then
        dap_write_word dev EEFC_FCR (CMD_SGPB ||| (i <<< 8))
      else
        dap_write_word dev EEFC_FCR (CMD_CGPB ||| (i <<< 8))) =
      (fun i => dap_write_word dev EEFC_FCR
        (gpnvm_command (u32 ((data.getD 1 0 <<< 8) ||| data.getD 0 0)) i)) := by
    funext i
    rw [and_bit_ne_zero]
    unfold gpnvm_command CMD_SGPB CMD_CGPB
    split <;> rfl
  have hcheck : (check (0 == (0 : Int))
      "internal: incorrect section index in target_fuse_write()" [] : Prog σ Unit) s =
      Result.ok () s := rfl
  unfold target_fuse_write
  rw [bind_ok hcheck, hbody]
  exact for_loop_write dev EEFC_FCR _ GPNVM_SIZE_BITS 0 s

theorem fuse_value_of_bytes {d0 d1 : Nat} (h0 : d0 < 256) (h1 : d1 < 256) :
    u32 ((d1 <<< 8) ||| d0) = (d1 <<< 8) ||| d0 := by
  apply u32_of_lt
  have h : (d1 <<< 8) ||| d0 < 2 ^ 32 := by
    apply Nat.or_lt_two_pow
    · rw [Nat.shiftLeft_eq]; omega
    · omega
  simpa using h

/-- Bits 0..8 of the reconstructed value come from `data[0]` and bit 0 of
`data[1]` only. -/
theorem fuse_value_low_bits {d0 d1 e1 i : Nat} (h0 : d0 < 256) (he : e1 % 2 = d1 % 2)
    (hi : i < 9) : ((e1 <<< 8) ||| d0).testBit i = ((d1 <<< 8) ||| d0).testBit i := by
  simp only [Nat.testBit_or, Nat.testBit_shiftLeft]
  by_cases h8 : i < 8
  · have : ¬ (i ≥ 8) := by omega
    simp [this]
  · have hi8 : i = 8 := by omega
    subst hi8
    have hd : d0.testBit 8 = false := Nat.testBit_lt_two_pow (by omega)
    simp [hd, Nat.testBit_zero, he]

end FuseWrite

/-- C6: for every 2-byte input, `target_fuse_write(0, data)` returns normally
after exactly nine writes, all to `EEFC_FCR`, in the order i = 0..8, the i-th
being `0x5a00000b | (i << 8)` when bit i of `data[1] << 8 | data[0]` is 1 and
`0x5a00000c | (i << 8)` when it is 0; the run depends only on `data[0]` and on
bit 0 of `data[1]`. -/
theorem fuse_write_nine_commands {σ : Type} (dev : Dev σ) (d0 d1 : Nat) (h0 : d0 < 256)
    (h1 : d1 < 256) (s : State σ) :
    (∃ s1 : State σ, target_fuse_write dev 0 [d0, d1] s = Result.ok () s1 ∧
      s1.trace = s.trace ++ (List.range 9).map (fun i =>
        Event.write_word EEFC_FCR (gpnvm_command ((d1 <<< 8) ||| d0) i))) ∧
    (∀ e1 : Nat, e1 < 256 → e1 % 2 = d1 % 2 →
      target_fuse_write dev 0 [d0, e1] s = target_fuse_write dev 0 [d0, d1] s) := by
  constructor
  · refine ⟨_, fuse_write_run dev [d0, d1] s, ?_⟩
    simp [fuse_value_of_bytes h0 h1, List.range_eq_range']
  · intro e1 he1 hpar
    rw [fuse_write_run, fuse_write_run]
    have hcmd : ∀ i, i < 9 →
        gpnvm_command (u32 ((e1 <<< 8) ||| d0)) i = gpnvm_command (u32 ((d1 <<< 8) ||| d0)) i := by
      intro i hi
      rw [fuse_value_of_bytes h0 he1, fuse_value_of_bytes h0 h1]
      unfold gpnvm_command
      rw [fuse_value_low_bits h0 hpar hi]
    have hr : List.range' 0 9 = [0, 1, 2, 3, 4, 5, 6, 7, 8] := by decide
    simp only [hr, List.foldl, List.map, List.getD_cons_zero, List.getD_cons_succ]
    rw [hcmd 0 (by omega), hcmd 1 (by omega), hcmd 2 (by omega), hcmd 3 (by omega),
      hcmd 4 (by omega), hcmd 5 (by omega), hcmd 6 (by omega), hcmd 7 (by omega),
      hcmd 8 (by omega)]

/-- C3: when the payload size `file_size` exceeds 512, Program and Verify
return normally, leave the hardware state untouched and add nothing to the
trace but one log line: no block write, no block read, no register access. -/
theorem oversize_program_verify_no_hardware {σ : Type} (dev : Dev σ) (fuel : Nat)
    (s : State σ) (h : s.target_options.file_size > 512) :
    target_program_user_signature dev fuel s =
        Result.ok () { s with trace := s.trace ++
          [Event.verbose "Error! The file size cannot exceed 512 bytes, nothing" []] } ∧
    target_verify_user_signature dev fuel s =
        Result.ok () { s with trace := s.trace ++
          [Event.verbose "Error! The file size cannot exceed 512 bytes, nothing" []] } := by
  have hget : (get_target_options : Prog σ target_options_t) s =
      Result.ok s.target_options s := rfl
  constructor
  · unfold target_program_user_signature
    rw [bind_ok hget]
    simp only [FLASH_PAGE_SIZE, h, if_true]
    rfl
  · unfold target_verify_user_signature
    rw [bind_ok hget]
    simp only [FLASH_PAGE_SIZE, h, if_true]
    rfl

/-! ## Runs against a scripted target -/

section Scripted

theorem bind_apply {σ α β : Type} (m : Prog σ α) (f : α → Prog σ β) (s : State σ) :
    (m >>= f) s = Prog.bind m f s := rfl

theorem write_word_scripted (addr data : Nat) (h : Script) (t : List Event) (td : device_t)
    (o : target_options_t) :
    dap_write_word scripted addr data ⟨h, t, td, o⟩ =
      Result.ok () ⟨h, t ++ [Event.write_word addr data], td, o⟩ := rfl

theorem read_fsr_scripted (c e : Nat) (fsr frr p : List Nat) (t : List Event) (td : device_t)
    (o : target_options_t) :
    dap_read_word scripted EEFC_FSR ⟨⟨c, e, fsr, frr, p⟩, t, td, o⟩ =
      Result.ok (u32 (fsr.headD 0))
        ⟨⟨c, e, fsr.tail, frr, p⟩, t ++ [Event.read_word EEFC_FSR (u32 (fsr.headD 0))], td, o⟩ :=
  rfl

theorem read_frr_scripted (c e : Nat) (fsr frr p : List Nat) (t : List Event) (td : device_t)
    (o : target_options_t) :
    dap_read_word scripted EEFC_FRR ⟨⟨c, e, fsr, frr, p⟩, t, td, o⟩ =
      Result.ok (u32 (frr.headD 0))
        ⟨⟨c, e, fsr, frr.tail, p⟩, t ++ [Event.read_word EEFC_FRR (u32 (frr.headD 0))], td, o⟩ :=
  rfl

/-- A busy-wait against a script: it reads the status words on which the loop
condition holds, then the first one on which it fails, and stops there. -/
theorem wait_while_scripted (k : Nat) (stay : List Nat) (x : Nat) (rest : List Nat)
    (hstay : ∀ v ∈ stay, v % 2 = k) (hx : x % 2 ≠ k) :
    ∀ (fuel : Nat) (c e : Nat) (frr p : List Nat) (t : List Event) (td : device_t)
      (o : target_options_t), stay.length < fuel →
      wait_while scripted k fuel ⟨⟨c, e, stay ++ x :: rest, frr, p⟩, t, td, o⟩ =
        Result.ok () ⟨⟨c, e, rest, frr, p⟩,
          t ++ (stay ++ [x]).map (fun v => Event.read_word EEFC_FSR (u32 v)), td, o⟩ := by
  induction stay with
  | nil =>
    intro fuel c e frr p t td o hfuel
    obtain ⟨n, rfl⟩ : ∃ n, fuel = n + 1 := ⟨fuel - 1, by simp at hfuel; omega⟩
    simp only [wait_while, bind_apply, Prog.bind, List.nil_append, read_fsr_scripted,
      List.headD_cons, List.tail_cons, u32_and_frdy]
    have : ¬ (k = x % 2) := fun h => hx h.symm
    simp [this, Prog.pure]
  | cons v stay ih =>
    intro fuel c e frr p t td o hfuel
    obtain ⟨n, rfl⟩ : ∃ n, fuel = n + 1 := ⟨fuel - 1, by simp at hfuel; omega⟩
    have hv : k = v % 2 := (hstay v (List.mem_cons_self _ _)).symm
    simp only [wait_while, bind_apply, Prog.bind, List.cons_append, read_fsr_scripted,
      List.headD_cons, List.tail_cons, u32_and_frdy]
    rw [if_pos hv, ih (fun w hw => hstay w (List.mem_cons_of_mem _ hw)) n c e frr p _ td o
      (by simp at hfuel; omega)]
    simp

/-- Draining `n` result words against a script. -/
theorem drain_scripted (n : Nat) :
    ∀ (i : Nat) (c e : Nat) (fsr frr p : List Nat) (t : List Event) (td : device_t)
      (o : target_options_t),
      for_loop (fun _ => discard_word scripted EEFC_FRR) i n ⟨⟨c, e, fsr, frr, p⟩, t, td, o⟩ =
        Result.ok () ⟨⟨c, e, fsr, frr.drop n, p⟩,
          t ++ (List.range n).map (fun j => Event.read_word EEFC_FRR (u32 (frr.getD j 0))),
          td, o⟩ := by
  induction n with
  | zero => intro i c e fsr frr p t td o; simp [for_loop, Prog.pure]
  | succ n ih =>
    intro i c e fsr frr p t td o
    simp only [for_loop, discard_word, bind_apply, Prog.bind, read_frr_scripted, Prog.pure]
    have := ih (i + 1) c e fsr frr.tail p
      (t ++ [Event.read_word EEFC_FRR (u32 (frr.headD 0))]) td o
    simp only [discard_word, bind_apply, Prog.bind, Prog.pure] at this
    rw [this]
    cases frr with
    | nil => simp [List.range_succ_eq_map, Function.comp_def]
    | cons a l => simp [List.range_succ_eq_map, Function.comp_def]

theorem frr_reads_append (t1 t2 : List Event) :
    frr_reads (t1 ++ t2) = frr_reads t1 + frr_reads t2 := by
  simp [frr_reads, List.countP_append]

theorem frr_reads_fsr (l : List Nat) :
    frr_reads (l.map (fun v => Event.read_word EEFC_FSR (u32 v))) = 0 := by
  induction l with
  | nil => rfl
  | cons a l ih =>
    simp only [List.map_cons]
    rw [show ∀ (x : Event) (xs : List Event), x :: xs = [x] ++ xs from fun _ _ => rfl,
      frr_reads_append, ih]
    rfl

theorem frr_reads_frr (l : List Nat) (f : Nat → Nat) :
    frr_reads (l.map (fun j => Event.read_word EEFC_FRR (f j))) = l.length := by
  induction l with
  | nil => rfl
  | cons a l ih =>
    simp only [List.map_cons, List.length_cons]
    rw [show ∀ (x : Event) (xs : List Event), x :: xs = [x] ++ xs from fun _ _ => rfl,
      frr_reads_append, ih]
    simp [frr_reads, List.countP_cons, EEFC_FRR]
    omega

end Scripted


theorem select_body_scripted (fuel : Nat)
    (validator : target_options_t → Nat → Nat → Except (String × List Nat) target_options_t)
    (options : target_options_t) (d : device_t) (c e : Nat) (busy : List Nat) (r : Nat)
    (rest : List Nat) (fl_id : Nat) (tl p : List Nat) (t : List Event) (td : device_t)
    (o : target_options_t)
    (hbusy : ∀ v ∈ busy, v % 2 = 0) (hr : r % 2 ≠ 0) (hfuel : busy.length < fuel)
    (hid : fl_id ≠ 0) (hid32 : fl_id < 4294967296) (hsz : d.flash_size < 4294967296) :
    ∃ (h1 : Script) (tr : List Event),
      frr_reads tr = 5 + u32 (tl.headD 0) + u32 ((tl.tail.drop (u32 (tl.headD 0))).headD 0) ∧
      select_body scripted fuel validator options d
        ⟨⟨c, e, busy ++ r :: rest, fl_id :: d.flash_size :: 512 :: tl, p⟩, t, td, o⟩ =
      match validator options d.flash_size (FLASH_PAGE_SIZE * PAGES_IN_ERASE_BLOCK) with
      | Except.ok o1 => Result.ok () ⟨h1, t ++ tr, d, o1⟩
      | Except.error err => Result.fatal err.1 err.2 ⟨h1, t ++ tr, d, options⟩ := by
  have hw := wait_while_scripted 0 busy r rest hbusy hr fuel c e
  have h1 : (fl_id != 0) = true := by simp [hid]
  simp only [select_body, bind_apply, Prog.bind, verbose_s, emit, write_word_scripted,
    hw _ _ _ _ _ hfuel, read_frr_scripted, List.headD_cons, List.tail_cons, check,
    u32_of_lt hid32, u32_of_lt hsz, h1, if_true, Prog.pure, beq_self_eq_true,
    show u32 512 = 512 from rfl, show (512 == FLASH_PAGE_SIZE) = true from rfl,
    drain_scripted, set_target_device, set_target_options, target_check_options,
    get_target_options, List.append_assoc]
  have hcount : ∀ n m : Nat, frr_reads
      ([Event.verbose_s "Target: %s\n" d.name] ++
        ([Event.write_word EEFC_FCR CMD_GETD] ++
          (List.map (fun v => Event.read_word EEFC_FSR (u32 v)) (busy ++ [r]) ++
            ([Event.read_word EEFC_FRR fl_id] ++
              ([Event.read_word EEFC_FRR d.flash_size] ++
                ([Event.read_word EEFC_FRR 512] ++
                  ([Event.read_word EEFC_FRR n] ++
                    (List.map (fun j => Event.read_word EEFC_FRR (u32 (tl.tail.getD j 0)))
                        (List.range n) ++
                      ([Event.read_word EEFC_FRR m] ++
                        List.map (fun j => Event.read_word EEFC_FRR
                            (u32 ((List.drop n tl.tail).tail.getD j 0)))
                          (List.range m)))))))))) = 5 + n + m := by
    intro n m
    simp only [frr_reads_append, frr_reads_fsr, frr_reads_frr, List.length_range,
      show ∀ v, frr_reads [Event.read_word EEFC_FRR v] = 1 from fun _ => rfl,
      show frr_reads [Event.verbose_s "Target: %s\n" d.name] = 0 from rfl,
      show frr_reads [Event.write_word EEFC_FCR CMD_GETD] = 0 from rfl]
    omega
  cases validator options d.flash_size (FLASH_PAGE_SIZE * PAGES_IN_ERASE_BLOCK) with
  | ok o1 => exact ⟨_, _, hcount _ _, rfl⟩
  | error err => exact ⟨_, _, hcount _ _, rfl⟩


theorem select_body_scripted_fatal (fuel : Nat)
    (validator : target_options_t → Nat → Nat → Except (String × List Nat) target_options_t)
    (options : target_options_t) (d : device_t) (c e : Nat) (busy : List Nat) (r : Nat)
    (rest : List Nat) (fl_id fl_size fl_page : Nat) (tl p : List Nat) (t : List Event)
    (td : device_t) (o : target_options_t)
    (hbusy : ∀ v ∈ busy, v % 2 = 0) (hr : r % 2 ≠ 0) (hfuel : busy.length < fuel)
    (hid32 : fl_id < 4294967296) (hsz32 : fl_size < 4294967296)
    (hpg32 : fl_page < 4294967296)
    (hbad : ¬ (fl_size = d.flash_size ∧ fl_page = 512 ∧ fl_id ≠ 0)) :
    ∃ (fmt : String) (args : List Nat) (h1 : Script) (tr : List Event),
      select_body scripted fuel validator options d
        ⟨⟨c, e, busy ++ r :: rest, fl_id :: fl_size :: fl_page :: tl, p⟩, t, td, o⟩ =
      Result.fatal fmt args ⟨h1, t ++ tr, td, o⟩ := by
  have hw := wait_while_scripted 0 busy r rest hbusy hr fuel c e
  by_cases hid : fl_id = 0
  · subst hid
    simp only [select_body, bind_apply, Prog.bind, verbose_s, emit, write_word_scripted,
      hw _ _ _ _ _ hfuel, read_frr_scripted, List.headD_cons, List.tail_cons, check,
      show u32 0 = 0 from rfl, show ((0 : Nat) != 0) = false from rfl, error_exit,
      List.append_assoc]
    exact ⟨_, _, _, _, rfl⟩
  · have h1 : (fl_id != 0) = true := by simp [hid]
    by_cases hs : fl_size = d.flash_size
    · have hp : fl_page ≠ 512 := fun hp => hbad ⟨hs, hp, hid⟩
      have h3 : (fl_page == FLASH_PAGE_SIZE) = false := by simp [FLASH_PAGE_SIZE, hp]
      subst hs
      simp only [select_body, bind_apply, Prog.bind, verbose_s, emit, write_word_scripted,
        hw _ _ _ _ _ hfuel, read_frr_scripted, List.headD_cons, List.tail_cons, check,
        u32_of_lt hid32, u32_of_lt hsz32, u32_of_lt hpg32, h1, h3, if_true, Prog.pure,
        beq_self_eq_true, error_exit, List.append_assoc]
      exact ⟨_, _, _, _, rfl⟩
    · have h2 : (fl_size == d.flash_size) = false := by simp [hs]
      simp only [select_body, bind_apply, Prog.bind, verbose_s, emit, write_word_scripted,
        hw _ _ _ _ _ hfuel, read_frr_scripted, List.headD_cons, List.tail_cons, check,
        u32_of_lt hid32, u32_of_lt hsz32, h1, h2, if_true, Prog.pure, error_exit,
        List.append_assoc]
      exact ⟨_, _, _, _, rfl⟩

theorem select_loop_miss {σ : Type} (dev : Dev σ) (fuel : Nat)
    (validator : target_options_t → Nat → Nat → Except (String × List Nat) target_options_t)
    (options : target_options_t) (cid exid : Nat) (l : List device_t)
    (h : ∀ d ∈ l, ¬ (d.chip_id = cid ∧ d.chip_exid = exid)) :
    select_loop dev fuel validator options cid exid l =
      error_exit "unknown target device (CHIP_ID = 0x%08x)" [cid] := by
  induction l with
  | nil => rfl
  | cons d l ih =>
    have hd := h d (List.mem_cons_self _ _)
    have hc : (d.chip_id != cid || d.chip_exid != exid) = true := by
      by_cases h1 : d.chip_id = cid
      · have h2 : d.chip_exid ≠ exid := fun h2 => hd ⟨h1, h2⟩
        simp [h1, h2]
      · simp [h1]
    simp only [select_loop, hc, if_true]
    exact ih (fun x hx => h x (List.mem_cons_of_mem _ hx))

theorem select_loop_hit {σ : Type} (dev : Dev σ) (fuel : Nat)
    (validator : target_options_t → Nat → Nat → Except (String × List Nat) target_options_t)
    (options : target_options_t) (cid exid : Nat) (d : device_t) (l : List device_t)
    (h : l.find? (fun x => x.chip_id == cid && x.chip_exid == exid) = some d) :
    select_loop dev fuel validator options cid exid l =
      select_body dev fuel validator options d := by
  induction l with
  | nil => simp at h
  | cons x l ih =>
    by_cases hx : (x.chip_id == cid && x.chip_exid == exid) = true
    · have hc : (x.chip_id != cid || x.chip_exid != exid) = false := by
        simp only [Bool.and_eq_true, beq_iff_eq] at hx
        simp [hx.1, hx.2]
      simp only [List.find?, hx, Option.some.injEq] at h
      subst h
      simp [select_loop, hc]
    · have hc : (x.chip_id != cid || x.chip_exid != exid) = true := by
        simp only [Bool.and_eq_true, beq_iff_eq, not_and] at hx
        by_cases h1 : x.chip_id = cid
        · simp [h1, hx h1]
        · simp [h1]
      have hx' : (x.chip_id == cid && x.chip_exid == exid) = false := by simpa using hx
      simp only [List.find?, hx'] at h
      simp only [select_loop, hc, if_true]
      exact ih h

set_option maxRecDepth 100000 in
theorem devices_find_self :
    ∀ d ∈ devices,
      devices.find? (fun x => x.chip_id == d.chip_id && x.chip_exid == d.chip_exid) = some d := by
  decide

set_option maxRecDepth 100000 in
theorem devices_word_sized :
    ∀ d ∈ devices, d.chip_id < 4294967296 ∧ d.chip_exid < 4294967296 ∧
      d.flash_size < 4294967296 := by
  decide

theorem target_select_scripted (fuel : Nat)
    (validator : target_options_t → Nat → Nat → Except (String × List Nat) target_options_t)
    (options : target_options_t) (c e : Nat) (fsr frr p : List Nat) (t : List Event)
    (td : device_t) (o : target_options_t) :
    target_select scripted fuel validator options ⟨⟨c, e, fsr, frr, p⟩, t, td, o⟩ =
      select_loop scripted fuel validator options (u32 c) (u32 e) devices
        ⟨⟨c, e, fsr, frr, p⟩,
          t ++ [Event.reset_hw 1, Event.reconnect,
            Event.write_word DHCSR (DHCSR_DBGKEY ||| DHCSR_DEBUGEN ||| DHCSR_HALT),
            Event.write_word DEMCR DEMCR_VC_CORERESET,
            Event.write_word AIRCR (AIRCR_VECTKEY ||| AIRCR_SYSRESETREQ),
            Event.read_word CHIPID_CIDR (u32 c), Event.read_word CHIPID_EXID (u32 e)], td, o⟩ := by
  have hreset : scripted.reconnect (scripted.reset_hw 1 ⟨c, e, fsr, frr, p⟩) =
      ⟨c, e, fsr, frr, p⟩ := rfl
  have hcidr : ∀ t1 : List Event,
      dap_read_word scripted CHIPID_CIDR ⟨⟨c, e, fsr, frr, p⟩, t1, td, o⟩ =
        Result.ok (u32 c) ⟨⟨c, e, fsr, frr, p⟩, t1 ++ [Event.read_word CHIPID_CIDR (u32 c)],
          td, o⟩ := fun _ => rfl
  have hexid : ∀ t1 : List Event,
      dap_read_word scripted CHIPID_EXID ⟨⟨c, e, fsr, frr, p⟩, t1, td, o⟩ =
        Result.ok (u32 e) ⟨⟨c, e, fsr, frr, p⟩, t1 ++ [Event.read_word CHIPID_EXID (u32 e)],
          td, o⟩ := fun _ => rfl
  simp only [target_select, bind_apply, Prog.bind, dap_reset_target_hw, reconnect_debugger,
    write_word_scripted, hreset, hcidr, hexid, List.append_assoc, List.singleton_append,
    List.cons_append, List.nil_append]


/-- On a script whose identity registers hold the pair of table entry `d`,
`target_select` runs the validation of `d`. -/
theorem target_select_hit (fuel : Nat)
    (validator : target_options_t → Nat → Nat → Except (String × List Nat) target_options_t)
    (options : target_options_t) (d : device_t) (hd : d ∈ devices) (fsr frr p : List Nat)
    (t : List Event) (td : device_t) (o : target_options_t) :
    target_select scripted fuel validator options
        ⟨⟨d.chip_id, d.chip_exid, fsr, frr, p⟩, t, td, o⟩ =
      select_body scripted fuel validator options d
        ⟨⟨d.chip_id, d.chip_exid, fsr, frr, p⟩,
          t ++ [Event.reset_hw 1, Event.reconnect,
            Event.write_word DHCSR (DHCSR_DBGKEY ||| DHCSR_DEBUGEN ||| DHCSR_HALT),
            Event.write_word DEMCR DEMCR_VC_CORERESET,
            Event.write_word AIRCR (AIRCR_VECTKEY ||| AIRCR_SYSRESETREQ),
            Event.read_word CHIPID_CIDR d.chip_id,
            Event.read_word CHIPID_EXID d.chip_exid], td, o⟩ := by
  obtain ⟨hc32, he32, -⟩ := devices_word_sized d hd
  rw [target_select_scripted, u32_of_lt hc32, u32_of_lt he32,
    select_loop_hit scripted fuel validator options d.chip_id d.chip_exid d devices
      (devices_find_self d hd)]

/-- C1: identification in `target_select` is an exact first-match lookup.  When
the identity registers hold the pair of a table entry `d`, the entry whose
validation runs is `d` itself; when they hold a pair of no entry, the function
aborts with "unknown target device" carrying the raw `chip_id`, having only
reset, reconnected, written the three core-debug registers and read the two
identity registers: no word goes to `EEFC_FCR`. -/
theorem target_select_exact_lookup (fuel : Nat)
    (validator : target_options_t → Nat → Nat → Except (String × List Nat) target_options_t)
    (options : target_options_t) (s : State Script)
    (hc : s.hw.cidr < 4294967296) (he : s.hw.exid < 4294967296) :
    (∀ d ∈ devices, s.hw.cidr = d.chip_id → s.hw.exid = d.chip_exid →
      target_select scripted fuel validator options s =
        select_body scripted fuel validator options d
          { s with trace := s.trace ++ [Event.reset_hw 1, Event.reconnect,
              Event.write_word DHCSR (DHCSR_DBGKEY ||| DHCSR_DEBUGEN ||| DHCSR_HALT),
              Event.write_word DEMCR DEMCR_VC_CORERESET,
              Event.write_word AIRCR (AIRCR_VECTKEY ||| AIRCR_SYSRESETREQ),
              Event.read_word CHIPID_CIDR d.chip_id,
              Event.read_word CHIPID_EXID d.chip_exid] }) ∧
    ((∀ d ∈ devices, ¬ (d.chip_id = s.hw.cidr ∧ d.chip_exid = s.hw.exid)) →
      target_select scripted fuel validator options s =
          Result.fatal "unknown target device (CHIP_ID = 0x%08x)" [s.hw.cidr]
            { s with trace := s.trace ++ [Event.reset_hw 1, Event.reconnect,
                Event.write_word DHCSR (DHCSR_DBGKEY ||| DHCSR_DEBUGEN ||| DHCSR_HALT),
                Event.write_word DEMCR DEMCR_VC_CORERESET,
                Event.write_word AIRCR (AIRCR_VECTKEY ||| AIRCR_SYSRESETREQ),
                Event.read_word CHIPID_CIDR s.hw.cidr,
                Event.read_word CHIPID_EXID s.hw.exid] } ∧
        fcr_writes [Event.reset_hw 1, Event.reconnect,
                Event.write_word DHCSR (DHCSR_DBGKEY ||| DHCSR_DEBUGEN ||| DHCSR_HALT),
                Event.write_word DEMCR DEMCR_VC_CORERESET,
                Event.write_word AIRCR (AIRCR_VECTKEY ||| AIRCR_SYSRESETREQ),
                Event.read_word CHIPID_CIDR s.hw.cidr,
                Event.read_word CHIPID_EXID s.hw.exid] = []) := by
  obtain ⟨⟨c, e, fsr, frr, p⟩, t, td, o⟩ := s
  simp only at hc he
  simp only [target_select_scripted, u32_of_lt hc, u32_of_lt he]
  constructor
  · intro d hd h1 h2
    subst h1 h2
    rw [select_loop_hit scripted fuel validator options d.chip_id d.chip_exid d devices
      (devices_find_self d hd)]
  · intro hmiss
    rw [select_loop_miss scripted fuel validator options c e devices hmiss]
    exact ⟨rfl, rfl⟩


/-- C2 (as stated, refuted): a SAM E70Q21 reports the right flash size, page
size 512 and a non-zero flash id, yet `target_select` aborts, because the
options validator refuses the options; by then `target_device` and
`target_options` have been overwritten. -/
theorem target_select_rejected_options :
    (2 * 1024 * 1024 = sam_e70q21.flash_size ∧ 512 = 512 ∧ 0x000f0730 ≠ 0) ∧
    e70q21_target.target_device = no_device ∧
    ∃ s1 : State Script,
      target_select scripted 3 aligned_options page_options e70q21_target =
        Result.fatal "size must be a multiple of %d for the selected target" [8192] s1 ∧
      s1.target_device = sam_e70q21 ∧ s1.target_options = page_options := by
  have hd : sam_e70q21 ∈ devices := by decide
  have hsel := target_select_hit 3 aligned_options page_options sam_e70q21 hd [0, 0, 1]
    [0x000f0730, 2 * 1024 * 1024, 512, 2, 0x100000, 0x100000, 3, 16, 17, 18] [] [] no_device
    page_options
  obtain ⟨h1, tr, -, hrun⟩ := select_body_scripted 3 aligned_options page_options sam_e70q21
    sam_e70q21.chip_id sam_e70q21.chip_exid [0, 0] 1 [] 0x000f0730
    [2, 0x100000, 0x100000, 3, 16, 17, 18] []
    ([] ++ [Event.reset_hw 1, Event.reconnect,
      Event.write_word DHCSR (DHCSR_DBGKEY ||| DHCSR_DEBUGEN ||| DHCSR_HALT),
      Event.write_word DEMCR DEMCR_VC_CORERESET,
      Event.write_word AIRCR (AIRCR_VECTKEY ||| AIRCR_SYSRESETREQ),
      Event.read_word CHIPID_CIDR sam_e70q21.chip_id,
      Event.read_word CHIPID_EXID sam_e70q21.chip_exid]) no_device page_options
    (by decide) (by decide) (by decide) (by decide) (by decide) (by decide)
  exact ⟨by decide, rfl, _, hsel.trans hrun, rfl, rfl⟩

/-- C2 (amended): for a matched table entry `d` and a descriptor `(fl_id,
fl_size, fl_page_size)` read after GETD has completed, `target_select` returns
normally with `target_device = d` exactly when `fl_size = d.flash_size`,
`fl_page_size = 512`, `fl_id` is non-zero and the external options validator
accepts the options; when the size or the page size differs it aborts and
`target_device` and `target_options` are as before the call. -/
theorem target_select_geometry_check (fuel : Nat)
    (validator : target_options_t → Nat → Nat → Except (String × List Nat) target_options_t)
    (options : target_options_t) (s : State Script) (d : device_t)
    (busy : List Nat) (r : Nat) (rest : List Nat) (fl_id fl_size fl_page_size : Nat)
    (tl : List Nat)
    (hd : d ∈ devices) (hcid : s.hw.cidr = d.chip_id) (hexid : s.hw.exid = d.chip_exid)
    (hfsr : s.hw.fsr = busy ++ r :: rest) (hbusy : ∀ v ∈ busy, v % 2 = 0) (hr : r % 2 ≠ 0)
    (hfuel : busy.length < fuel)
    (hfrr : s.hw.frr = fl_id :: fl_size :: fl_page_size :: tl)
    (hid32 : fl_id < 4294967296) (hsz32 : fl_size < 4294967296)
    (hpg32 : fl_page_size < 4294967296) :
    (∀ o1 : target_options_t,
      (∃ s1 : State Script, target_select scripted fuel validator options s = Result.ok () s1 ∧
          s1.target_device = d ∧ s1.target_options = o1) ↔
        (fl_size = d.flash_size ∧ fl_page_size = 512 ∧ fl_id ≠ 0 ∧
          validator options d.flash_size (FLASH_PAGE_SIZE * PAGES_IN_ERASE_BLOCK) =
            Except.ok o1)) ∧
    ((fl_size ≠ d.flash_size ∨ fl_page_size ≠ 512) →
      ∃ (fmt : String) (args : List Nat) (s1 : State Script),
        target_select scripted fuel validator options s = Result.fatal fmt args s1 ∧
        s1.target_device = s.target_device ∧ s1.target_options = s.target_options) := by
  obtain ⟨⟨c, e, fsr, frr, p⟩, t, td, o⟩ := s
  simp only at hcid hexid hfsr hfrr
  subst hcid hexid hfsr hfrr
  obtain ⟨hc32, he32, hf32⟩ := devices_word_sized d hd
  have hsel := target_select_hit fuel validator options d hd (busy ++ r :: rest)
    (fl_id :: fl_size :: fl_page_size :: tl) p t td o
  have hbadcase : ¬ (fl_size = d.flash_size ∧ fl_page_size = 512 ∧ fl_id ≠ 0) →
      ∃ (fmt : String) (args : List Nat) (s1 : State Script),
        target_select scripted fuel validator options
          ⟨⟨d.chip_id, d.chip_exid, busy ++ r :: rest,
            fl_id :: fl_size :: fl_page_size :: tl, p⟩, t, td, o⟩ = Result.fatal fmt args s1 ∧
        s1.target_device = td ∧ s1.target_options = o := by
    intro hbad
    obtain ⟨fmt, args, h1, tr, hrun⟩ := select_body_scripted_fatal fuel validator options d
      d.chip_id d.chip_exid busy r rest fl_id fl_size fl_page_size tl p
      (t ++ [Event.reset_hw 1, Event.reconnect,
        Event.write_word DHCSR (DHCSR_DBGKEY ||| DHCSR_DEBUGEN ||| DHCSR_HALT),
        Event.write_word DEMCR DEMCR_VC_CORERESET,
        Event.write_word AIRCR (AIRCR_VECTKEY ||| AIRCR_SYSRESETREQ),
        Event.read_word CHIPID_CIDR d.chip_id,
        Event.read_word CHIPID_EXID d.chip_exid]) td o hbusy hr hfuel hid32 hsz32 hpg32 hbad
    exact ⟨fmt, args, _, hsel.trans hrun, rfl, rfl⟩
  have hgood : fl_size = d.flash_size → fl_page_size = 512 → fl_id ≠ 0 →
      ∃ (h1 : Script) (tr : List Event),
        target_select scripted fuel validator options
          ⟨⟨d.chip_id, d.chip_exid, busy ++ r :: rest,
            fl_id :: fl_size :: fl_page_size :: tl, p⟩, t, td, o⟩ =
        match validator options d.flash_size (FLASH_PAGE_SIZE * PAGES_IN_ERASE_BLOCK) with
        | Except.ok o2 => Result.ok () ⟨h1, tr, d, o2⟩
        | Except.error err => Result.fatal err.1 err.2 ⟨h1, tr, d, options⟩ := by
    intro hs hp hid
    subst hs hp
    obtain ⟨h1, tr, -, hrun⟩ := select_body_scripted fuel validator options d
      d.chip_id d.chip_exid busy r rest fl_id tl p
      (t ++ [Event.reset_hw 1, Event.reconnect,
        Event.write_word DHCSR (DHCSR_DBGKEY ||| DHCSR_DEBUGEN ||| DHCSR_HALT),
        Event.write_word DEMCR DEMCR_VC_CORERESET,
        Event.write_word AIRCR (AIRCR_VECTKEY ||| AIRCR_SYSRESETREQ),
        Event.read_word CHIPID_CIDR d.chip_id,
        Event.read_word CHIPID_EXID d.chip_exid]) td o hbusy hr hfuel hid hid32 hf32
    exact ⟨h1, _, hsel.trans hrun⟩
  refine ⟨fun o1 => ⟨?_, ?_⟩, ?_⟩
  · rintro ⟨s1, hok, -, hopt⟩
    have hconds : fl_size = d.flash_size ∧ fl_page_size = 512 ∧ fl_id ≠ 0 := by
      by_contra hbad
      obtain ⟨fmt, args, s2, hf, -, -⟩ := hbadcase hbad
      rw [hok] at hf
      cases hf
    obtain ⟨h1, tr, hrun⟩ := hgood hconds.1 hconds.2.1 hconds.2.2
    refine ⟨hconds.1, hconds.2.1, hconds.2.2, ?_⟩
    cases hv : validator options d.flash_size (FLASH_PAGE_SIZE * PAGES_IN_ERASE_BLOCK) with
    | ok o2 =>
      rw [hv, hok] at hrun
      cases hrun
      exact congrArg Except.ok hopt
    | error err =>
      rw [hv, hok] at hrun
      cases hrun
  · rintro ⟨hs, hp, hid, hval⟩
    obtain ⟨h1, tr, hrun⟩ := hgood hs hp hid
    rw [hval] at hrun
    exact ⟨_, hrun, rfl, rfl⟩
  · intro hdiff
    apply hbadcase
    rintro ⟨hs, hp, -⟩
    rcases hdiff with h | h
    · exact h hs
    · exact h hp

/-- C9: for a matched device whose descriptor passes validation and a result
stream that reports `N` plane words and `M` lock-region words, `target_select`
returns and has read `EEFC_FRR` exactly `5 + N + M` times: the drain loops end
for all 32-bit `N` and `M`. -/
theorem target_select_drain_count (fuel : Nat)
    (validator : target_options_t → Nat → Nat → Except (String × List Nat) target_options_t)
    (options o1 : target_options_t) (s : State Script) (d : device_t)
    (busy : List Nat) (r : Nat) (rest : List Nat) (fl_id N M : Nat)
    (planes more : List Nat)
    (hd : d ∈ devices) (hcid : s.hw.cidr = d.chip_id) (hexid : s.hw.exid = d.chip_exid)
    (hfsr : s.hw.fsr = busy ++ r :: rest) (hbusy : ∀ v ∈ busy, v % 2 = 0) (hr : r % 2 ≠ 0)
    (hfuel : busy.length < fuel)
    (hfrr : s.hw.frr = fl_id :: d.flash_size :: 512 :: N :: (planes ++ M :: more))
    (hplanes : planes.length = N)
    (hid : fl_id ≠ 0) (hid32 : fl_id < 4294967296)
    (hN : N < 4294967296) (hM : M < 4294967296)
    (hval : validator options d.flash_size (FLASH_PAGE_SIZE * PAGES_IN_ERASE_BLOCK) =
      Except.ok o1) :
    ∃ s1 : State Script, target_select scripted fuel validator options s = Result.ok () s1 ∧
      frr_reads s1.trace = frr_reads s.trace + (5 + N + M) := by
  obtain ⟨⟨c, e, fsr, frr, p⟩, t, td, o⟩ := s
  simp only at hcid hexid hfsr hfrr
  subst hcid hexid hfsr hfrr
  obtain ⟨hc32, he32, hf32⟩ := devices_word_sized d hd
  have hsel := target_select_hit fuel validator options d hd (busy ++ r :: rest)
    (fl_id :: d.flash_size :: 512 :: N :: (planes ++ M :: more)) p t td o
  obtain ⟨h1, tr, hcount, hrun⟩ := select_body_scripted fuel validator options d
    d.chip_id d.chip_exid busy r rest fl_id (N :: (planes ++ M :: more)) p
    (t ++ [Event.reset_hw 1, Event.reconnect,
      Event.write_word DHCSR (DHCSR_DBGKEY ||| DHCSR_DEBUGEN ||| DHCSR_HALT),
      Event.write_word DEMCR DEMCR_VC_CORERESET,
      Event.write_word AIRCR (AIRCR_VECTKEY ||| AIRCR_SYSRESETREQ),
      Event.read_word CHIPID_CIDR d.chip_id,
      Event.read_word CHIPID_EXID d.chip_exid]) td o hbusy hr hfuel hid hid32 hf32
  rw [hval] at hrun
  refine ⟨_, hsel.trans hrun, ?_⟩
  · have hdrop : List.drop N (planes ++ M :: more) = M :: more := by
      rw [← hplanes]
      exact List.drop_left' rfl
    simp only [List.headD_cons, List.tail_cons, u32_of_lt hN, hdrop, u32_of_lt hM] at hcount
    simp only [frr_reads_append, hcount]
    rfl


/-! ## Verify -/

/-- The comparison loop passes over a range on which the buffers agree. -/
theorem verify_loop_ok {σ : Type} (addr offs : Nat) (a b : List Nat) (n : Nat) :
    ∀ (i : Nat) (s : State σ),
      (∀ j, i ≤ j → j < i + n → a.getD (offs + j) 0 = b.getD j 0) →
      for_loop (verify_step addr offs a b) i n s = Result.ok () s := by
  induction n with
  | zero => intro i s _; rfl
  | succ n ih =>
    intro i s h
    have hi : (a.getD (offs + i) 0 != b.getD i 0) = false := by
      rw [h i (Nat.le_refl i) (by omega)]
      exact bne_self_eq_false _
    have hstep : verify_step addr offs a b i s = Result.ok () s := by
      unfold verify_step
      rw [hi]
      rfl
    simp only [for_loop]
    rw [bind_ok hstep]
    exact ih (i + 1) s (fun j h1 h2 => h j (by omega) (by omega))

/-- The comparison loop stops at the first index where the buffers differ. -/
theorem verify_loop_fail {σ : Type} (addr offs : Nat) (a b : List Nat) (n : Nat) :
    ∀ (i k : Nat) (s : State σ), i ≤ k → k < i + n →
      (∀ j, i ≤ j → j < k → a.getD (offs + j) 0 = b.getD j 0) →
      a.getD (offs + k) 0 ≠ b.getD k 0 →
      for_loop (verify_step addr offs a b) i n s =
        Result.fatal "verification failed" []
          { s with trace := s.trace ++
            [Event.verbose "\nat address 0x%x expected 0x%02x, read 0x%02x\n"
              [addr + k, a.getD (offs + k) 0, b.getD k 0]] } := by
  induction n with
  | zero => intro i k s h1 h2; omega
  | succ n ih =>
    intro i k s h1 h2 heq hne
    by_cases hik : i = k
    · subst hik
      have hi : (a.getD (offs + i) 0 != b.getD i 0) = true := bne_iff_ne.mpr hne
      have hstep : verify_step addr offs a b i s =
          Result.fatal "verification failed" []
            { s with trace := s.trace ++
              [Event.verbose "\nat address 0x%x expected 0x%02x, read 0x%02x\n"
                [addr + i, a.getD (offs + i) 0, b.getD i 0]] } := by
        unfold verify_step
        rw [hi]
        rfl
      simp only [for_loop]
      rw [bind_fatal hstep]
    · have hi : (a.getD (offs + i) 0 != b.getD i 0) = false := by
        rw [heq i (Nat.le_refl i) (by omega)]
        exact bne_self_eq_false _
      have hstep : verify_step addr offs a b i s = Result.ok () s := by
        unfold verify_step
        rw [hi]
        rfl
      simp only [for_loop]
      rw [bind_ok hstep]
      exact ih (i + 1) k s (by omega) (by omega) (fun j h3 h4 => heq j (by omega) h4) hne

/-- Verify against a script, up to the comparison loop. -/
theorem verify_scripted (fuel c e : Nat) (ready : List Nat) (x : Nat) (busy : List Nat)
    (y : Nat) (rest frr p : List Nat) (t : List Event) (td : device_t) (o : target_options_t)
    (hsize : o.file_size ≤ 512)
    (hready : ∀ v ∈ ready, v % 2 = 1) (hx : x % 2 ≠ 1) (hbusy : ∀ v ∈ busy, v % 2 = 0)
    (hy : y % 2 ≠ 0) (hf1 : ready.length < fuel) (hf2 : busy.length < fuel) :
    target_verify_user_signature scripted fuel
        ⟨⟨c, e, ready ++ x :: (busy ++ y :: rest), frr, p⟩, t, td, o⟩ =
      for_loop (verify_step FLASH_START 0 o.file_data p) 0 FLASH_PAGE_SIZE
        ⟨⟨c, e, rest, frr, p⟩,
          t ++ ([Event.write_word EEFC_FCR CMD_STUS] ++
            ((ready ++ [x]).map (fun v => Event.read_word EEFC_FSR (u32 v)) ++
              ([Event.read_block FLASH_START p] ++ ([Event.write_word EEFC_FCR CMD_SPUS] ++
                (busy ++ [y]).map (fun v => Event.read_word EEFC_FSR (u32 v)))))), td, o⟩ := by
  have hw1 := wait_while_scripted 1 ready x (busy ++ y :: rest) hready hx fuel c e
  have hw2 := wait_while_scripted 0 busy y rest hbusy hy fuel c e
  have hnot : ¬ (o.file_size > FLASH_PAGE_SIZE) := by simp [FLASH_PAGE_SIZE]; omega
  have hblock : ∀ (fsr : List Nat) (t1 : List Event),
      dap_read_block scripted FLASH_START FLASH_PAGE_SIZE ⟨⟨c, e, fsr, frr, p⟩, t1, td, o⟩ =
        Result.ok p ⟨⟨c, e, fsr, frr, p⟩, t1 ++ [Event.read_block FLASH_START p], td, o⟩ :=
    fun _ _ => rfl
  simp only [target_verify_user_signature, bind_apply, Prog.bind, get_target_options, hnot,
    if_false, write_word_scripted, hw1 _ _ _ _ _ hf1, hblock, hw2 _ _ _ _ _ hf2,
    List.append_assoc]


/-- C5: for a payload of at most 512 bytes in a 512-byte buffer `a` and a
512-byte page `b` returned by the block read, Verify returns normally exactly
when `a[i] = b[i]` for all `i < 512`; otherwise, `k` being the least index with
`a[k] ≠ b[k]`, it aborts with "verification failed" and the last thing it
reports is the mismatch `(0x00400000 + k, a[k], b[k])`. -/
theorem verify_reports_first_mismatch (fuel : Nat) (s : State Script) (ready : List Nat)
    (x : Nat) (busy : List Nat) (y : Nat) (rest : List Nat)
    (hsize : s.target_options.file_size ≤ 512)
    (ha : s.target_options.file_data.length = 512) (hb : s.hw.page.length = 512)
    (hfsr : s.hw.fsr = ready ++ x :: (busy ++ y :: rest))
    (hready : ∀ v ∈ ready, v % 2 = 1) (hx : x % 2 ≠ 1) (hbusy : ∀ v ∈ busy, v % 2 = 0)
    (hy : y % 2 ≠ 0) (hf1 : ready.length < fuel) (hf2 : busy.length < fuel) :
    ((∃ s1 : State Script, target_verify_user_signature scripted fuel s = Result.ok () s1) ↔
      ∀ i, i < 512 → s.target_options.file_data.getD i 0 = s.hw.page.getD i 0) ∧
    (∀ k, k < 512 →
      (∀ j, j < k → s.target_options.file_data.getD j 0 = s.hw.page.getD j 0) →
      s.target_options.file_data.getD k 0 ≠ s.hw.page.getD k 0 →
      ∃ s1 : State Script,
        target_verify_user_signature scripted fuel s =
          Result.fatal "verification failed" [] s1 ∧
        s1.trace.getLast? = some
          (Event.verbose "\nat address 0x%x expected 0x%02x, read 0x%02x\n"
            [0x00400000 + k, s.target_options.file_data.getD k 0, s.hw.page.getD k 0])) := by
  obtain ⟨⟨c, e, fsr, frr, p⟩, t, td, o⟩ := s
  simp only at hsize ha hb hfsr ⊢
  subst hfsr
  rw [verify_scripted fuel c e ready x busy y rest frr p t td o hsize hready hx hbusy hy hf1 hf2]
  have hfail : ∀ k, k < 512 → (∀ j, j < k → o.file_data.getD j 0 = p.getD j 0) →
      o.file_data.getD k 0 ≠ p.getD k 0 →
      ∀ s0 : State Script, for_loop (verify_step FLASH_START 0 o.file_data p) 0
          FLASH_PAGE_SIZE s0 =
        Result.fatal "verification failed" []
          { s0 with trace := s0.trace ++
            [Event.verbose "\nat address 0x%x expected 0x%02x, read 0x%02x\n"
              [FLASH_START + k, o.file_data.getD (0 + k) 0, p.getD k 0]] } := by
    intro k hk hlt hne s0
    apply verify_loop_fail FLASH_START 0 o.file_data p FLASH_PAGE_SIZE 0 k s0 (Nat.zero_le k)
    · simpa [FLASH_PAGE_SIZE] using hk
    · intro j _ hj
      rw [Nat.zero_add]
      exact hlt j hj
    · rw [Nat.zero_add]
      exact hne
  refine ⟨⟨?_, ?_⟩, ?_⟩
  · rintro ⟨s1, hok⟩
    by_contra hall
    have hex : ∃ k, k < 512 ∧ o.file_data.getD k 0 ≠ p.getD k 0 := by
      by_contra hno
      apply hall
      intro i hi
      by_contra hne
      exact hno ⟨i, hi, hne⟩
    classical
    have hmin := fun (m : Nat) (hm : m < Nat.find hex) => Nat.find_min hex hm
    obtain ⟨hk, hne⟩ := Nat.find_spec hex
    have hlt : ∀ j, j < Nat.find hex → o.file_data.getD j 0 = p.getD j 0 := by
      intro j hj
      by_contra hjne
      exact hmin j hj ⟨by omega, hjne⟩
    rw [hfail (Nat.find hex) hk hlt hne] at hok
    cases hok
  · intro hall
    refine ⟨_, verify_loop_ok FLASH_START 0 o.file_data p FLASH_PAGE_SIZE 0 _ ?_⟩
    intro j _ hj
    rw [Nat.zero_add]
    exact hall j (by simpa [FLASH_PAGE_SIZE] using hj)
  · intro k hk hlt hne
    refine ⟨_, hfail k hk hlt hne _, ?_⟩
    show (_ ++ [_]).getLast? = _
    rw [List.getLast?_concat, Nat.zero_add]
    rfl

/-! ## Read -/

/-- Effect of one set-bit / clear-bit command on the 9-bit register. -/
theorem testBit_gpnvm_upd (b : Bool) (g j i : Nat) :
    (gpnvm_upd b g j).testBit i = (decide (i < 9) && (if j = i then b else g.testBit i)) := by
  unfold gpnvm_upd GPNVM_SIZE_BITS
  rw [Nat.testBit_mod_two_pow, Nat.one_shiftLeft]
  cases b
  · by_cases hji : j = i
    · simp [Nat.testBit_two_pow, hji]
    · simp [Nat.testBit_two_pow, hji]
  · by_cases hji : j = i
    · simp [Nat.testBit_two_pow, hji]
    · simp [Nat.testBit_two_pow, hji]

/-- The controller executes the command word for bit `j < 9`. -/
theorem gpnvm_ctl_command (v j : Nat) (hj : j < 9) (g f0 : Nat) :
    gpnvm_ctl.write_word EEFC_FCR (gpnvm_command v j) ⟨g, f0⟩ =
      ⟨gpnvm_upd (v.testBit j) g j, f0⟩ := by
  unfold gpnvm_command
  interval_cases j <;> cases v.testBit _ <;> rfl

/-- The bytes `[p & 0xff, p >> 8]` are reassembled into `p`. -/
theorem fuse_value_of_pattern (p : Nat) (hp : p < 512) :
    u32 (((p >>> 8) <<< 8) ||| (p &&& 0xff)) = p := by
  have h1 : p &&& 0xff < 256 := Nat.and_lt_two_pow p (by decide : 0xff < 2 ^ 8)
  have h2 : p >>> 8 < 256 := by
    rw [Nat.shiftRight_eq_div_pow]
    omega
  rw [fuse_value_of_bytes h1 h2]
  apply Nat.eq_of_testBit_eq
  intro i
  have h255 : (0xff : Nat) = 2 ^ 8 - 1 := rfl
  rw [h255]
  simp only [Nat.testBit_or, Nat.testBit_and, Nat.testBit_shiftLeft, Nat.testBit_shiftRight,
    Nat.testBit_two_pow_sub_one]
  by_cases hi : i < 8
  · have : ¬ (i ≥ 8) := by omega
    simp [hi, this]
  · have h8 : i ≥ 8 := by omega
    have : 8 + (i - 8) = i := by omega
    simp [hi, h8, this]

/-- After `target_fuse_write`, the register holds the 9 low bits written. -/
theorem gpnvm_after_write (v g f0 : Nat) :
    (List.range' 0 9).foldl (fun h j => gpnvm_ctl.write_word EEFC_FCR (gpnvm_command v j) h)
      (⟨g, f0⟩ : Gpnvm) = ⟨v % 2 ^ 9, f0⟩ := by
  have hr : List.range' 0 9 = [0, 1, 2, 3, 4, 5, 6, 7, 8] := by decide
  rw [hr]
  simp only [List.foldl]
  rw [gpnvm_ctl_command v 0 (by omega), gpnvm_ctl_command v 1 (by omega),
    gpnvm_ctl_command v 2 (by omega), gpnvm_ctl_command v 3 (by omega),
    gpnvm_ctl_command v 4 (by omega), gpnvm_ctl_command v 5 (by omega),
    gpnvm_ctl_command v 6 (by omega), gpnvm_ctl_command v 7 (by omega),
    gpnvm_ctl_command v 8 (by omega)]
  congr 1
  apply Nat.eq_of_testBit_eq
  intro i
  simp only [testBit_gpnvm_upd, Nat.testBit_mod_two_pow]
  by_cases hi : i < 9
  · interval_cases i <;> simp
  · simp [hi]

/-- Fuse read on the controller: one command, one status read, one result
read. -/
theorem fuse_read_gpnvm (fuel g f0 x y : Nat) (t : List Event) (td : device_t)
    (o : target_options_t) :
    target_fuse_read gpnvm_ctl (fuel + 1) 0 [x, y] ⟨⟨g, f0⟩, t, td, o⟩ =
      Result.ok (2, [u8 (u32 (g % 2 ^ 9)), u8 (u32 (g % 2 ^ 9) >>> 8)])
        ⟨⟨g, g % 2 ^ 9⟩,
          t ++ [Event.write_word EEFC_FCR CMD_GGPB] ++ [Event.read_word EEFC_FSR (u32 FSR_FRDY)] ++
            [Event.read_word EEFC_FRR (u32 (g % 2 ^ 9))], td, o⟩ := by
  have hsec : ¬ ((0 : Int) > 0) := by decide
  have hwr : dap_write_word gpnvm_ctl EEFC_FCR CMD_GGPB ⟨⟨g, f0⟩, t, td, o⟩ =
      Result.ok () ⟨⟨g, g % 2 ^ 9⟩, t ++ [Event.write_word EEFC_FCR CMD_GGPB], td, o⟩ := rfl
  have hfsr : ∀ (h : Gpnvm) (t1 : List Event),
      dap_read_word gpnvm_ctl EEFC_FSR ⟨h, t1, td, o⟩ =
        Result.ok (u32 FSR_FRDY) ⟨h, t1 ++ [Event.read_word EEFC_FSR (u32 FSR_FRDY)], td, o⟩ :=
    fun _ _ => rfl
  have hfrr : ∀ (h : Gpnvm) (t1 : List Event),
      dap_read_word gpnvm_ctl EEFC_FRR ⟨h, t1, td, o⟩ =
        Result.ok (u32 h.frr) ⟨h, t1 ++ [Event.read_word EEFC_FRR (u32 h.frr)], td, o⟩ :=
    fun _ _ => rfl
  have hrdy : ¬ (0 = u32 FSR_FRDY &&& FSR_FRDY) := by decide
  simp only [target_fuse_read, hsec, if_false, bind_apply, Prog.bind, hwr, wait_while, hfsr,
    hrdy, hfrr, Prog.pure, GPNVM_SIZE]
  rfl

/-- C7: on the GPNVM controller, for every 9-bit pattern `p` and every initial
state, `target_fuse_write(0, [p & 0xff, p >> 8])` followed by
`target_fuse_read(0, out)` returns the count 2 and `out = [p & 0xff, p >> 8]`. -/
theorem fuse_round_trip (p : Nat) (hp : p < 512) (fuel g f0 : Nat) (out : List Nat)
    (hout : out.length = 2) (t : List Event) (td : device_t) (o : target_options_t) :
    ∃ s1 s2 : State Gpnvm,
      target_fuse_write gpnvm_ctl 0 [p &&& 0xff, p >>> 8] ⟨⟨g, f0⟩, t, td, o⟩ =
        Result.ok () s1 ∧
      target_fuse_read gpnvm_ctl (fuel + 1) 0 out s1 =
        Result.ok (2, [p &&& 0xff, p >>> 8]) s2 := by
  obtain ⟨x, y, rfl⟩ : ∃ x y, out = [x, y] := by
    match out, hout with
    | [x, y], _ => exact ⟨x, y, rfl⟩
  have hmod : p % 2 ^ 9 = p := Nat.mod_eq_of_lt (by omega)
  have hlo : u8 p = p &&& 0xff := by
    have h255 : (0xff : Nat) = 2 ^ 8 - 1 := rfl
    rw [h255, Nat.and_pow_two_sub_one_eq_mod]
    rfl
  have hhi : u8 (p >>> 8) = p >>> 8 := by
    unfold u8
    rw [Nat.shiftRight_eq_div_pow]
    omega
  have h1 := fuse_write_run gpnvm_ctl [p &&& 0xff, p >>> 8] ⟨⟨g, f0⟩, t, td, o⟩
  simp only [List.getD_cons_zero, List.getD_cons_succ, fuse_value_of_pattern p hp,
    gpnvm_after_write, hmod] at h1
  have h2 := fuse_read_gpnvm fuel p f0 x y
    (t ++ (List.range' 0 9).map (fun j => Event.write_word EEFC_FCR (gpnvm_command p j))) td o
  rw [hmod, u32_of_lt (by omega : p < 4294967296), hlo, hhi] at h2
  exact ⟨_, _, h1, h2⟩


/-! ## Read with an oversize request -/

/-- C8 (failing input): with section -1 `target_fuse_read` does not return 0
bytes; it issues the "get GPNVM bits" command, polls, reads the result word and
returns 2 bytes. -/
theorem fuse_read_negative_section_reads :
    target_fuse_read scripted 1 (-1) [0, 0] fuse_target =
      Result.ok (2, [0x45, 0x01])
        ⟨⟨0xa1020e00, 2, [], [], []⟩,
          [Event.write_word EEFC_FCR CMD_GGPB, Event.read_word EEFC_FSR 1,
            Event.read_word EEFC_FRR 0x145],
          sam_e70q21, page_options⟩ := by
  have hsec : ¬ ((-1 : Int) > 0) := by decide
  have hrdy : ¬ (0 = u32 1 &&& FSR_FRDY) := by decide
  simp only [target_fuse_read, fuse_target, hsec, if_false, bind_apply, Prog.bind,
    write_word_scripted, wait_while, read_fsr_scripted, read_frr_scripted, List.headD_cons,
    List.tail_cons, hrdy, Prog.pure, GPNVM_SIZE]
  rfl

/-- C10 (failing input): `target_fuse_write(0, [0xff, 0x01])` writes the nine
command words back to back; the status register is never read. -/
theorem fuse_write_never_polls :
    target_fuse_write scripted 0 [0xff, 0x01] fuse_target =
      Result.ok ()
        ⟨⟨0xa1020e00, 2, [1], [0x145], []⟩,
          [Event.write_word EEFC_FCR 0x5a00000b, Event.write_word EEFC_FCR 0x5a00010b,
            Event.write_word EEFC_FCR 0x5a00020b, Event.write_word EEFC_FCR 0x5a00030b,
            Event.write_word EEFC_FCR 0x5a00040b, Event.write_word EEFC_FCR 0x5a00050b,
            Event.write_word EEFC_FCR 0x5a00060b, Event.write_word EEFC_FCR 0x5a00070b,
            Event.write_word EEFC_FCR 0x5a00080b],
          sam_e70q21, page_options⟩ := by
  rw [fuse_write_run]
  rfl


/-! ## The theorems at sample inputs -/

/-- The lookup on a SAM E70Q21 and on a chip that is not in the table. -/
theorem target_select_exact_lookup_witness :
    target_select scripted 3 accept_options page_options e70q21_target =
        select_body scripted 3 accept_options page_options sam_e70q21
          { e70q21_target with trace := e70q21_target.trace ++ [Event.reset_hw 1,
              Event.reconnect,
              Event.write_word DHCSR (DHCSR_DBGKEY ||| DHCSR_DEBUGEN ||| DHCSR_HALT),
              Event.write_word DEMCR DEMCR_VC_CORERESET,
              Event.write_word AIRCR (AIRCR_VECTKEY ||| AIRCR_SYSRESETREQ),
              Event.read_word CHIPID_CIDR sam_e70q21.chip_id,
              Event.read_word CHIPID_EXID sam_e70q21.chip_exid] } ∧
    target_select scripted 3 accept_options page_options unknown_target =
        Result.fatal "unknown target device (CHIP_ID = 0x%08x)" [0x12345678]
          { unknown_target with trace := [Event.reset_hw 1, Event.reconnect,
              Event.write_word DHCSR 0xa05f0003, Event.write_word DEMCR 1,
              Event.write_word AIRCR 0x05fa0004,
              Event.read_word CHIPID_CIDR 0x12345678, Event.read_word CHIPID_EXID 0] } :=
  ⟨(target_select_exact_lookup 3 accept_options page_options e70q21_target
      (by decide) (by decide)).1 sam_e70q21 (by decide) rfl rfl,
    ((target_select_exact_lookup 3 accept_options page_options unknown_target
      (by decide) (by decide)).2 (by decide)).1⟩

/-- The geometry check on a SAM E70Q21 reporting 2 MiB and 512-byte pages. -/
theorem target_select_geometry_check_witness :
    ((∀ o1 : target_options_t,
      (∃ s1 : State Script,
          target_select scripted 3 accept_options page_options e70q21_target =
            Result.ok () s1 ∧
          s1.target_device = sam_e70q21 ∧ s1.target_options = o1) ↔
        (2 * 1024 * 1024 = sam_e70q21.flash_size ∧ 512 = 512 ∧ 0x000f0730 ≠ 0 ∧
          accept_options page_options sam_e70q21.flash_size
            (FLASH_PAGE_SIZE * PAGES_IN_ERASE_BLOCK) = Except.ok o1)) ∧
    ((2 * 1024 * 1024 ≠ sam_e70q21.flash_size ∨ 512 ≠ 512) →
      ∃ (fmt : String) (args : List Nat) (s1 : State Script),
        target_select scripted 3 accept_options page_options e70q21_target =
          Result.fatal fmt args s1 ∧
        s1.target_device = e70q21_target.target_device ∧
        s1.target_options = e70q21_target.target_options)) ∧
    (∃ (fmt : String) (args : List Nat) (s1 : State Script),
      target_select scripted 3 accept_options page_options e70q21_small_flash =
        Result.fatal fmt args s1 ∧
      s1.target_device = no_device ∧ s1.target_options = page_options) :=
  ⟨target_select_geometry_check 3 accept_options page_options e70q21_target
      sam_e70q21 [0, 0] 1 [] 0x000f0730 (2 * 1024 * 1024) 512
      [2, 0x100000, 0x100000, 3, 16, 17, 18]
      (by decide) rfl rfl rfl (by decide) (by decide) (by decide) rfl (by decide) (by decide)
      (by decide),
    (target_select_geometry_check 3 accept_options page_options e70q21_small_flash
      sam_e70q21 [0, 0] 1 [] 0x000f0730 (1024 * 1024) 512
      [2, 0x100000, 0x100000, 3, 16, 17, 18]
      (by decide) rfl rfl rfl (by decide) (by decide) (by decide) rfl (by decide) (by decide)
      (by decide)).2 (Or.inl (by decide))⟩

/-- Program and Verify with a payload of 513 bytes. -/
theorem oversize_program_verify_no_hardware_witness :
    target_program_user_signature scripted 0 oversize_target =
        Result.ok () { oversize_target with trace := oversize_target.trace ++
          [Event.verbose "Error! The file size cannot exceed 512 bytes, nothing" []] } ∧
    target_verify_user_signature scripted 0 oversize_target =
        Result.ok () { oversize_target with trace := oversize_target.trace ++
          [Event.verbose "Error! The file size cannot exceed 512 bytes, nothing" []] } :=
  oversize_program_verify_no_hardware scripted 0 oversize_target (by decide)

/-- Verify of a page read back identically. -/
theorem verify_reports_first_mismatch_witness :
    ((∃ s1 : State Script,
        target_verify_user_signature scripted 3 signature_target = Result.ok () s1) ↔
      ∀ i, i < 512 → signature_target.target_options.file_data.getD i 0 =
        signature_target.hw.page.getD i 0) ∧
    (∀ k, k < 512 →
      (∀ j, j < k → signature_target.target_options.file_data.getD j 0 =
        signature_target.hw.page.getD j 0) →
      signature_target.target_options.file_data.getD k 0 ≠ signature_target.hw.page.getD k 0 →
      ∃ s1 : State Script,
        target_verify_user_signature scripted 3 signature_target =
          Result.fatal "verification failed" [] s1 ∧
        s1.trace.getLast? = some
          (Event.verbose "\nat address 0x%x expected 0x%02x, read 0x%02x\n"
            [0x00400000 + k, signature_target.target_options.file_data.getD k 0,
              signature_target.hw.page.getD k 0])) :=
  verify_reports_first_mismatch 3 signature_target [1, 1] 0 [0] 1 [] (by decide)
    (List.length_replicate _ _) (List.length_replicate _ _) rfl (by decide) (by decide)
    (by decide) (by decide) (by decide) (by decide)

/-- The nine commands for the bytes 0xff, 0x01. -/
theorem fuse_write_nine_commands_witness :
    (∃ s1 : State Script, target_fuse_write scripted 0 [0xff, 0x01] fuse_target =
        Result.ok () s1 ∧
      s1.trace = fuse_target.trace ++ (List.range 9).map (fun i =>
        Event.write_word EEFC_FCR (gpnvm_command ((0x01 <<< 8) ||| 0xff) i))) ∧
    (∀ e1 : Nat, e1 < 256 → e1 % 2 = 0x01 % 2 →
      target_fuse_write scripted 0 [0xff, e1] fuse_target =
        target_fuse_write scripted 0 [0xff, 0x01] fuse_target) :=
  fuse_write_nine_commands scripted 0xff 0x01 (by decide) (by decide) fuse_target

/-- The round trip of the pattern 0x155 from a register holding 0x0aa. -/
theorem fuse_round_trip_witness :
    ∃ s1 s2 : State Gpnvm,
      target_fuse_write gpnvm_ctl 0 [0x155 &&& 0xff, 0x155 >>> 8]
          ⟨⟨0x0aa, 0⟩, [], sam_e70q21, page_options⟩ = Result.ok () s1 ∧
      target_fuse_read gpnvm_ctl (0 + 1) 0 [0, 0] s1 =
        Result.ok (2, [0x155 &&& 0xff, 0x155 >>> 8]) s2 :=
  fuse_round_trip 0x155 (by decide) 0 0x0aa 0 [0, 0] rfl [] sam_e70q21 page_options

/-- The drain on a SAM E70Q21 reporting 2 plane words and 3 lock-region words:
ten reads of the result register. -/
theorem target_select_drain_count_witness :
    ∃ s1 : State Script,
      target_select scripted 3 accept_options page_options e70q21_target = Result.ok () s1 ∧
      frr_reads s1.trace = frr_reads e70q21_target.trace + (5 + 2 + 3) :=
  target_select_drain_count 3 accept_options page_options page_options e70q21_target
    sam_e70q21 [0, 0] 1 [] 0x000f0730 2 3 [0x100000, 0x100000] [16, 17, 18]
    (by decide) rfl rfl rfl (by decide) (by decide) (by decide) rfl rfl (by decide) (by decide)
    (by decide) (by decide) rfl

end AtmelCm7
